import Mathlib

/-!
Verification of the VMC (Variational Monte Carlo) core:
shallow embedding of `src/samplers/metropolis.py`, `src/qs/models/vmc.py`
and `src/qs/quantum_state.py`, over exact rational arithmetic.

Arrays are embedded as `List (List ℚ)` (dynamically shaped, mirroring
numpy/jax arrays) in the sampler, and as functions `Fin n → Fin d → ℚ`
(statically shaped) in the wavefunction model where shapes are fixed.
-/

namespace VMCRepo

/-! ## Sampler state (`qs.utils.State`)

Modelled from the spec ("ChainState: positions, logProbability,
acceptedCount, stepIndex"): the `State` record class itself lives in
`qs/utils`, outside the available sources, but its four fields are fully
determined by every construction site in `metropolis.py` and `vmc.py`:
`State(positions=..., logp=..., n_accepted=..., delta=...)`. -/
structure MCState where
  positions : List (List ℚ)
  logp : List ℚ
  n_accepted : ℕ
  delta : ℕ
deriving DecidableEq, Repr

/-- Modelled from the spec: `advance_PRNG_state` (in `qs/utils`, outside the
available sources) derives the per-step random substream state from the
base seed and the step index `state.delta` ("derive per-chain/per-step
substreams from a pure hash of (seed, chainIndex, stepIndex)").  It is
modelled as an injective pure pairing of the two numbers. -/
def advance_PRNG_state (seed delta : ℕ) : ℕ := Nat.pair seed delta

/-- Elementwise sum of two matrices (numpy `+` on equally shaped arrays). -/
def matAdd (a b : List (List ℚ)) : List (List ℚ) :=
  List.zipWith (List.zipWith (fun x y => x + y)) a b

/-- Scalar times matrix (numpy scalar broadcasting). -/
def matScale (c : ℚ) (m : List (List ℚ)) : List (List ℚ) :=
  m.map (List.map (fun x => c * x))

/-- `rng.normal(loc=initial_positions, scale=self.scale)` in
`Metropolis.step`: a Gaussian draw centred at `initial_positions`, i.e.
`initial_positions + scale * z` where `z` is the standard-normal matrix
produced by the generator state.  The raw draw `z` is abstracted as a
function of the generator state (the numeric distribution itself is not
modelled). -/
def proposeGaussian (scale : ℚ) (z : List (List ℚ)) (initial : List (List ℚ)) :
    List (List ℚ) :=
  matAdd initial (matScale scale z)

/-- `Metropolis.accept_numpy` (metropolis.py lines 102-116): per-particle
loop; for each row index `i`, if `accept[i]` then take the proposed row and
log-probability and increment `n_accepted`, else keep the current ones.
The Python loop runs over `initial_positions.shape[0]` with all five arrays
of matching first dimension; the recursion consumes the rows in lockstep. -/
def accept_numpy : ℕ → List Bool → List (List ℚ) → List (List ℚ) →
    List ℚ → List ℚ → List (List ℚ) × List ℚ × ℕ
  | n, a :: as, x :: xs, p :: ps, c :: cs, q :: qs =>
      let rest := accept_numpy (if a then n + 1 else n) as xs ps cs qs
      ((if a then p else x) :: rest.1, (if a then q else c) :: rest.2.1, rest.2.2)
  | n, _, _, _, _, _ => ([], [], n)

/-- One row of `jnp.matmul(w, m)` for a row vector `w` (shape `(1, N)`)
against `m` (shape `(N, D)`): the weighted sum of the rows of `m`. -/
def rowMatmul (w : List ℚ) (m : List (List ℚ)) : List ℚ :=
  (List.zipWith (fun wi row => row.map (fun x => wi * x)) w m).foldr
    (List.zipWith (fun x y => x + y))
    (List.replicate ((m.headD []).length) 0)

/-- `Metropolis.accept_jax` (metropolis.py lines 85-99).  The accept mask
has shape `(N, 1)`; `accept.T` is `(1, N)` and the bool entries are
promoted to `0/1`.  `support1 = accept.T @ proposed` and
`support2 = (1 - accept.T) @ initial` each have shape `(1, D)`, so
`new_positions` is the single row `support1 + support2`.
`n_accepted = jnp.sum(accept)` discards the incoming count, and
`new_logp = jnp.where(accept, log_psi_proposed, log_psi_current)`
broadcasts the `(N, 1)` mask against the `(N,)` arrays to shape `(N, N)`:
row `i` is the whole proposed (resp. current) log-probability vector. -/
def accept_jax (_n_accepted : ℕ) (accept : List Bool)
    (initial proposed : List (List ℚ)) (log_psi_current log_psi_proposed : List ℚ) :
    List (List ℚ) × List (List ℚ) × ℕ :=
  let aQ : List ℚ := accept.map (fun b => if b then 1 else 0)
  let oneMinusAQ : List ℚ := accept.map (fun b => if b then 0 else 1)
  let support1 := rowMatmul aQ proposed
  let support2 := rowMatmul oneMinusAQ initial
  let new_positions := [List.zipWith (fun x y => x + y) support1 support2]
  let new_logp := accept.map (fun a => if a then log_psi_proposed else log_psi_current)
  (new_positions, new_logp, accept.count true)

/-- The per-particle accept decision in `Metropolis.step` (lines 56-66):
`log_accept_prob = prob_proposed - prob_current` and
`accept = rng.random(N) < np.exp(log_accept_prob)`, elementwise.  The
floating-point `np.exp` is abstracted as a function `expF : ℚ → ℚ`. -/
def acceptMask (expF : ℚ → ℚ) (u log_psi_current log_psi_proposed : List ℚ) :
    List Bool :=
  List.zipWith (fun ui a => decide (ui < expF a)) u
    (List.zipWith (fun p c => p - c) log_psi_proposed log_psi_current)

/-- The accept mask as computed inside `Metropolis.step` for a given chain
state: the generator state is `advance_PRNG_state seed state.delta`, the
uniform draws are `rng.random(initial_positions.shape[0])`, and the two
log-probability arrays are `wf_squared` of the current and of the proposed
positions. -/
def stepMask (normalDraw : ℕ → List (List ℚ)) (uniformDraw : ℕ → ℕ → List ℚ)
    (expF : ℚ → ℚ) (scale : ℚ) (wf_squared : List (List ℚ) → List ℚ)
    (seed : ℕ) (state : MCState) : List Bool :=
  let next_gen := advance_PRNG_state seed state.delta
  let proposed := proposeGaussian scale (normalDraw next_gen) state.positions
  acceptMask expF (uniformDraw next_gen state.positions.length)
    (wf_squared state.positions) (wf_squared proposed)

/-- `Metropolis.step` (metropolis.py lines 35-82), with the numpy accept
backend (`self.accept_fn = self.accept_numpy`): derive the generator state
from `(seed, state.delta)`, propose Gaussian moves around the current
positions, recompute `wf_squared` for current and proposed positions,
build the per-particle accept mask, delegate to `accept_numpy`, and return
`State(new_positions, new_logp, n_accepted, state.delta + 1)`. -/
def step (normalDraw : ℕ → List (List ℚ)) (uniformDraw : ℕ → ℕ → List ℚ)
    (expF : ℚ → ℚ) (scale : ℚ) (wf_squared : List (List ℚ) → List ℚ)
    (seed : ℕ) (n_accepted : ℕ) (state : MCState) : MCState :=
  let next_gen := advance_PRNG_state seed state.delta
  let proposed := proposeGaussian scale (normalDraw next_gen) state.positions
  let prob_current := wf_squared state.positions
  let prob_proposed := wf_squared proposed
  let accept := stepMask normalDraw uniformDraw expF scale wf_squared seed state
  let r := accept_numpy n_accepted accept state.positions proposed prob_current prob_proposed
  ⟨r.1, r.2.1, r.2.2, state.delta + 1⟩

/-! ## Second-order dual numbers

A tiny forward-mode automatic-differentiation ring, used to embed what
`jax.grad` / `jax.hessian` compute on the (polynomial) wavefunction: an
element `⟨v, d, h⟩` represents `v + d·(ε₁ + ε₂) + h·ε₁ε₂` in
`ℚ[ε₁, ε₂] / (ε₁², ε₂²)`, so evaluating a function at `D2.var a` yields its
value, first derivative and second derivative at `a` in the three fields. -/
structure D2 where
  v : ℚ
  d : ℚ
  h : ℚ
deriving DecidableEq, Repr

@[ext] theorem D2.extAux (x y : D2) (hv : x.v = y.v) (hd : x.d = y.d) (hh : x.h = y.h) :
    x = y := by
  cases x; cases y; simp only at hv hd hh; simp [hv, hd, hh]

instance : Zero D2 := ⟨⟨0, 0, 0⟩⟩
instance : One D2 := ⟨⟨1, 0, 0⟩⟩
instance : Add D2 := ⟨fun x y => ⟨x.v + y.v, x.d + y.d, x.h + y.h⟩⟩
instance : Neg D2 := ⟨fun x => ⟨-x.v, -x.d, -x.h⟩⟩
instance : Mul D2 := ⟨fun x y => ⟨x.v * y.v, x.v * y.d + x.d * y.v,
  x.v * y.h + 2 * x.d * y.d + x.h * y.v⟩⟩

@[simp] theorem D2.zero_v : (0 : D2).v = 0 := rfl
@[simp] theorem D2.zero_d : (0 : D2).d = 0 := rfl
@[simp] theorem D2.zero_h : (0 : D2).h = 0 := rfl
@[simp] theorem D2.one_v : (1 : D2).v = 1 := rfl
@[simp] theorem D2.one_d : (1 : D2).d = 0 := rfl
@[simp] theorem D2.one_h : (1 : D2).h = 0 := rfl
@[simp] theorem D2.add_v (x y : D2) : (x + y).v = x.v + y.v := rfl
@[simp] theorem D2.add_d (x y : D2) : (x + y).d = x.d + y.d := rfl
@[simp] theorem D2.add_h (x y : D2) : (x + y).h = x.h + y.h := rfl
@[simp] theorem D2.neg_v (x : D2) : (-x).v = -x.v := rfl
@[simp] theorem D2.neg_d (x : D2) : (-x).d = -x.d := rfl
@[simp] theorem D2.neg_h (x : D2) : (-x).h = -x.h := rfl
@[simp] theorem D2.mul_v (x y : D2) : (x * y).v = x.v * y.v := rfl
@[simp] theorem D2.mul_d (x y : D2) : (x * y).d = x.v * y.d + x.d * y.v := rfl
@[simp] theorem D2.mul_h (x y : D2) :
    (x * y).h = x.v * y.h + 2 * x.d * y.d + x.h * y.v := rfl

instance : CommRing D2 where
  nsmul := nsmulRec
  zsmul := zsmulRec
  add_assoc a b c := by ext <;> simp <;> ring
  zero_add a := by ext <;> simp
  add_zero a := by ext <;> simp
  add_comm a b := by ext <;> simp <;> ring
  mul_assoc a b c := by ext <;> simp <;> ring
  one_mul a := by ext <;> simp
  mul_one a := by ext <;> simp
  left_distrib a b c := by ext <;> simp <;> ring
  right_distrib a b c := by ext <;> simp <;> ring
  zero_mul a := by ext <;> simp
  mul_zero a := by ext <;> simp
  mul_comm a b := by ext <;> simp <;> ring
  neg_add_cancel a := by ext <;> simp

/-- Embed a constant (no dependence on the differentiation variables). -/
def D2.const (a : ℚ) : D2 := ⟨a, 0, 0⟩

/-- Embed the differentiation variable at the point `a`. -/
def D2.var (a : ℚ) : D2 := ⟨a, 1, 0⟩

/-! ## Wavefunction model (`qs/models/vmc.py`, class `VMC`) -/

/-- `VMC.wf_closure` (vmc.py lines 122-133): the log-domain trial
wavefunction `-alpha * sum(r**2, axis=1)`, one entry per particle.  Stated
generically over a commutative ring so that the same definition can be
evaluated on dual numbers, which is what tracing it through `jax.grad` /
`jax.hessian` amounts to. -/
def wf_closureG {R : Type} [CommRing R] {n d : ℕ} (r : Fin n → Fin d → R)
    (alpha : R) : Fin n → R :=
  fun i => -alpha * ∑ j, (r i j) ^ 2

/-- `VMC.wf_closure` at the concrete rational arrays. -/
def wf_closure {n d : ℕ} (r : Fin n → Fin d → ℚ) (alpha : ℚ) : Fin n → ℚ :=
  wf_closureG r alpha

/-- `VMC.prob_closure` (vmc.py lines 163-172):
`log_psi = self.wf_closure(r, alpha); return 2 * log_psi`. -/
def prob_closure {n d : ℕ} (r : Fin n → Fin d → ℚ) (alpha : ℚ) : Fin n → ℚ :=
  fun i => 2 * wf_closure r alpha i

/-- `VMC.laplacian_closure` (vmc.py lines 299-316), the analytic Laplacian:
after `r.reshape(-1, self._dim)` (the identity on an `(n, dim)` array),
`r2 = sum(r**2, axis=1)`, the per-particle array
`4 * alpha**2 * r2 - 2 * alpha * d`, and finally the total
`backend.sum` over the reshaped column. -/
def laplacian_closure {n d : ℕ} (r : Fin n → Fin d → ℚ) (alpha : ℚ) : ℚ :=
  let r2 : Fin n → ℚ := fun i => ∑ j, (r i j) ^ 2
  let lap : Fin n → ℚ := fun i => 4 * alpha ^ 2 * r2 i - 2 * alpha * (d : ℚ)
  ∑ i, lap i

/-- Row-major flattening of an `(n, d)` array, as numpy `reshape` performs
it: entry `k` is `r[k / d][k % d]`.  The `else` branch is unreachable
because `Fin (n * 0)` is empty. -/
def npFlatten {n d : ℕ} (r : Fin n → Fin d → ℚ) (k : Fin (n * d)) : ℚ :=
  if hd : 0 < d then
    r ⟨(k : ℕ) / d, (Nat.div_lt_iff_lt_mul hd).mpr k.isLt⟩
      ⟨(k : ℕ) % d, Nat.mod_lt _ hd⟩
  else 0

/-- The `first_term` of `VMC.laplacian_closure_jax`:
`jnp.trace(jax.hessian(self.wf)(r).reshape(d, d))` for the reshaped
single-row `r`, i.e. the sum over coordinates `k` of the second derivative
of the wavefunction with respect to coordinate `k`.  Note `self.wf`
evaluates `wf_closure` at the model's stored parameter `alpha0`, not at the
`alpha` argument of the closure.  The second derivative is extracted by
evaluating the generic `wf_closureG` on second-order dual numbers. -/
def hessianTraceWf (alpha0 : ℚ) {d : ℕ} (x : Fin d → ℚ) : ℚ :=
  ∑ k, (wf_closureG (R := D2)
    (fun _ : Fin 1 => fun j => if j = k then D2.var (x j) else D2.const (x j))
    (D2.const alpha0) ⟨0, Nat.one_pos⟩).h

/-- `VMC.grad_wf_closure_jax` (vmc.py lines 196-205):
`jax.grad(lambda positions: jnp.sum(self.wf_closure(positions, alpha)))`,
the entrywise first derivative of the summed log-wavefunction, extracted by
evaluating `wf_closureG` on dual numbers. -/
def grad_wf_closure_jax {n d : ℕ} (r : Fin n → Fin d → ℚ) (alpha : ℚ) :
    Fin n → Fin d → ℚ :=
  fun i j => (∑ iP, wf_closureG (R := D2)
    (fun a b => if a = i ∧ b = j then D2.var (r a b) else D2.const (r a b))
    (D2.const alpha) iP).d

/-- `VMC.laplacian_closure_jax` (vmc.py lines 318-335): `r.reshape(1, d)`
succeeds exactly when `n * d = d` (`none` models the raised reshape error
otherwise); then `first_term` is the hessian trace of `self.wf` (stored
parameter `alpha0`) and `second_term` is
`jnp.sum(self.grad_wf_closure(r, alpha) ** 2)` over the reshaped array,
with `grad_wf_closure` bound to the jax version when this closure is in
use. -/
def laplacian_closure_jax (alpha0 : ℚ) {n d : ℕ} (r : Fin n → Fin d → ℚ)
    (alpha : ℚ) : Option ℚ :=
  if hsh : n * d = d then
    let x : Fin d → ℚ := fun j => npFlatten r (Fin.cast hsh.symm j)
    let rResh : Fin 1 → Fin d → ℚ := fun _ => x
    let first_term := hessianTraceWf alpha0 x
    let second_term := ∑ i, ∑ j, (grad_wf_closure_jax rResh alpha i j) ^ 2
    some (first_term + second_term)
  else none

/-- `VMC.grads_closure` (vmc.py lines 230-240), the parameter gradient over
a batch `r` of shape `(batch, n_particles, dim)`:
`sum(-sum(r**2, axis=2), axis=1)`, one entry per batch element; the `alpha`
argument is unused by the formula. -/
def grads_closure {B n d : ℕ} (r : Fin B → Fin n → Fin d → ℚ) (_alpha : ℚ) :
    Fin B → ℚ :=
  fun b => ∑ i, -(∑ j, (r b i j) ^ 2)

/-! ## Training loop (`qs/quantum_state.py`, class `QS`) -/

/-- Modelled from the spec: the gradient-descent optimizer `Gd`
(`optimizers/gd.py`, outside the available sources):
"`step(currentParams, parameterGradientEstimate) -> updatedParams`, plain
gradient descent, `updated = current - eta * gradientEstimate`".  The
single-element parameter array broadcasts against the batched gradient
estimate, numpy-style. -/
def gd_step {B : ℕ} (eta : ℚ) (alphaCur : ℚ) (grad : Fin B → ℚ) : Fin B → ℚ :=
  fun b => alphaCur - eta * grad b

/-- The two copies of the variational parameter held by `QS` during
training: `qs_alpha` is the attribute `self.alpha` that `QS.train` feeds to
and updates from the optimizer, `model_alpha` is the parameter stored in
the wavefunction model `self.alg.params` that sampling and
`self.alg.grads` actually read. -/
structure TrainState where
  qs_alpha : ℚ
  model_alpha : ℚ
deriving DecidableEq, Repr

/-- One iteration of `QS.train` (quantum_state.py lines 211-224): compute
`grads_alpha = self.alg.grads(sampled_positions)` (which reads the model's
stored parameter), then
`self.alpha = self.backend.array(self._optimizer.step(self.alpha, grads_alpha))`.
The write-back `self.alg.params["alpha"] = self.alpha` is commented out in
the source, so the model's stored parameter comes out unchanged.  Returns
(the updated `self.alpha`, the model parameter after the iteration). -/
def train_iteration {B n d : ℕ} (eta : ℚ)
    (sampled_positions : Fin B → Fin n → Fin d → ℚ) (s : TrainState) :
    (Fin B → ℚ) × ℚ :=
  (gd_step eta s.qs_alpha (grads_closure sampled_positions s.model_alpha),
    s.model_alpha)

/-! ## Configuration dispatch (`QS.__init__` / `set_*`, `Metropolis.__init__`) -/

inductive BackendChoice | numpyB | jaxB
deriving DecidableEq, Repr

inductive HamChoice | ho | eo
deriving DecidableEq, Repr

inductive SamplerChoice | m | mh
deriving DecidableEq, Repr

inductive OptChoice | gd
deriving DecidableEq, Repr

inductive AcceptChoice | acceptNumpyFn | acceptJaxFn
deriving DecidableEq, Repr

/-- The backend `match` in `QS.__init__` (quantum_state.py lines 84-93):
any name other than "numpy" or "jax" raises `ValueError` immediately. -/
def qs_init_backend (backend : String) : Except String BackendChoice :=
  if backend = "numpy" then .ok .numpyB
  else if backend = "jax" then .ok .jaxB
  else .error "Invalid backend"

/-- `QS.set_hamiltonian` (lines 133-149): "ho" or "eo", else `ValueError`. -/
def set_hamiltonian (t : String) : Except String HamChoice :=
  if t = "ho" then .ok .ho
  else if t = "eo" then .ok .eo
  else .error "Invalid Hamiltonian type, should be ho or eo"

/-- `QS.set_sampler` (lines 153-168): "m" or "mh", else `ValueError`. -/
def set_sampler (mcmc_alg : String) : Except String SamplerChoice :=
  if mcmc_alg = "m" then .ok .m
  else if mcmc_alg = "mh" then .ok .mh
  else .error "Invalid MCMC algorithm type, should be m or mh"

/-- `QS.set_optimizer` (lines 173-182): "gd", else `ValueError`. -/
def set_optimizer (optimizer : String) : Except String OptChoice :=
  if optimizer = "gd" then .ok .gd
  else .error "Invalid optimizer type, should be gd"

/-- The backend dispatch in `Metropolis.__init__` (metropolis.py lines
25-30): "numpy" and "jax" bind `self.accept_fn`; any other backend only
prints "back end not supported !!!!!!" and the constructor completes
normally with `accept_fn` never assigned — no exception is raised, which
the `Except.ok` result records. -/
def metropolis_init_accept_fn (backend : String) :
    Except String (Option AcceptChoice) :=
  .ok (if backend = "numpy" then some .acceptNumpyFn
    else if backend = "jax" then some .acceptJaxFn
    else none)

/-- What the first call to `Metropolis.step` does with the accept-function
attribute: if `accept_fn` was never assigned, the lookup `self.accept_fn`
raises `AttributeError` inside the sampling loop. -/
def metropolis_step_dispatch (fn : Option AcceptChoice) :
    Except String AcceptChoice :=
  match fn with
  | some f => .ok f
  | none => .error "AttributeError: accept_fn is not set"

/-! ## Parameter initialization (`VMC.__init__`) -/

/-- Python truthiness of an optional float: `if alpha:` is `False` exactly
when `alpha` is `None` or `0.0`. -/
def pythonTruthy (x : Option ℚ) : Bool :=
  match x with
  | none => false
  | some a => decide (a ≠ 0)

/-- `VMC._initialize_variational_params` (vmc.py lines 367-376):
`if alpha:` store `[alpha]`, else store the default `[0.5]`. -/
def initialize_variational_params (alpha : Option ℚ) : ℚ :=
  if pythonTruthy alpha then alpha.getD 0 else 1 / 2

/-- The alpha handling in `VMC.__init__` (vmc.py lines 33-36):
`if alpha:` call `_initialize_variational_params(alpha)`, else call it with
no argument (i.e. `alpha = None`).  Returns the resulting stored value of
the variational parameter "alpha". -/
def vmc_init_alpha (alpha : Option ℚ) : ℚ :=
  if pythonTruthy alpha then initialize_variational_params alpha
  else initialize_variational_params none

/-! ## Helper lemmas -/

/-- `getD` of a `zipWith` at an index below both lengths. -/
theorem getD_zipWith {α β γ : Type} (f : α → β → γ) (da : α) (db : β) (dc : γ) :
    ∀ (as : List α) (bs : List β) (i : ℕ), i < as.length → i < bs.length →
      (List.zipWith f as bs).getD i dc = f (as.getD i da) (bs.getD i db)
  | [], _, i, ha, _ => absurd ha (by simp)
  | _ :: _, [], i, _, hb => absurd hb (by simp)
  | _ :: _, _ :: _, 0, _, _ => rfl
  | _ :: as, _ :: bs, i + 1, ha, hb => by
      simpa using getD_zipWith f da db dc as bs i (by simpa using ha) (by simpa using hb)

/-! ## Claim theorems -/

/-- C1: the training loop does not write the optimizer output back into the
wavefunction model.  Concretely: with learning rate 1/10, a one-sample batch
at position 1, and both parameter copies equal to 1/5 before the iteration,
the optimizer step of `QS.train` produces 3/10, but the model's stored
variational parameter after the iteration is still 1/5, which differs from
the optimizer output — so the next iteration samples under the old
parameters, contradicting the claim. -/
theorem C1_train_not_written_back :
    (train_iteration (B := 1) (n := 1) (d := 1) (1/10) (fun _ _ _ => 1)
      ⟨1/5, 1/5⟩).1 0 = 3/10 ∧
    (train_iteration (B := 1) (n := 1) (d := 1) (1/10) (fun _ _ _ => 1)
      ⟨1/5, 1/5⟩).2 = 1/5 ∧
    (3/10 : ℚ) ≠ 1/5 := by
  refine ⟨by norm_num [train_iteration, gd_step, grads_closure], rfl, by norm_num⟩

/-- C2: evaluating the two accept backends of `Metropolis.step` at a
concrete chain step with 2 particles in 1 dimension, current positions
[[3],[4]], proposed [[1],[2]], accept mask [true, false] and incoming
accepted count 5.  `accept_numpy` composes the new configuration per
particle ([[1],[4]]) and increments the count to 6 as the claim states, but
`accept_jax` collapses the configuration to the single summed row [[5]],
broadcasts the log-probabilities to a 2x2 array, and overwrites the
accepted count with 1 instead of incrementing it to 6 — so the claim fails
on the jax accept path of the step. -/
theorem C2_accept_jax_breaks_composition :
    accept_numpy 5 [true, false] [[3], [4]] [[1], [2]] [-1, -2] [-3, -4]
      = ([[1], [4]], [-3, -2], 6) ∧
    accept_jax 5 [true, false] [[3], [4]] [[1], [2]] [-1, -2] [-3, -4]
      = ([[5]], [[-3, -4], [-1, -2]], 1) := by
  refine ⟨by norm_num [accept_numpy], by norm_num [accept_jax, rowMatmul]⟩

/-- C3: the looped `accept_numpy` and the vectorized `accept_jax` are not
equivalent.  At accept mask [true, true], initial positions [[1],[2]],
proposed [[10],[20]], and incoming accepted count 3, `accept_numpy` returns
positions [[10],[20]] and count 5, while `accept_jax` returns the single
summed row [[30]] and count 2: new positions and accepted counts differ. -/
theorem C3_accept_backends_not_equivalent :
    accept_numpy 3 [true, true] [[1], [2]] [[10], [20]] [-1, -2] [-5, -6]
      = ([[10], [20]], [-5, -6], 5) ∧
    accept_jax 3 [true, true] [[1], [2]] [[10], [20]] [-1, -2] [-5, -6]
      = ([[30]], [[-5, -6], [-5, -6]], 2) ∧
    ([[10], [20]] : List (List ℚ)) ≠ [[30]] ∧ (5 : ℕ) ≠ 2 := by
  refine ⟨by norm_num [accept_numpy], by norm_num [accept_jax, rowMatmul],
    by decide, by decide⟩

/-- C4: in every Metropolis step, the accept decision for particle `i` is
exactly: the i-th independent uniform draw of the step is strictly less
than exp of (log-probability of the proposed configuration minus
log-probability of the current configuration), both evaluated at that
particle's entry — a per-particle decision, not one per configuration. -/
theorem C4_per_particle_acceptance
    (normalDraw : ℕ → List (List ℚ)) (uniformDraw : ℕ → ℕ → List ℚ)
    (expF : ℚ → ℚ) (scale : ℚ) (wf_squared : List (List ℚ) → List ℚ)
    (seed : ℕ) (state : MCState) (i : ℕ)
    (hu : i < (uniformDraw (advance_PRNG_state seed state.delta)
      state.positions.length).length)
    (hc : i < (wf_squared state.positions).length)
    (hp : i < (wf_squared (proposeGaussian scale
      (normalDraw (advance_PRNG_state seed state.delta))
      state.positions)).length) :
    ((stepMask normalDraw uniformDraw expF scale wf_squared seed state).getD i false
        = true ↔
      (uniformDraw (advance_PRNG_state seed state.delta)
          state.positions.length).getD i 0 <
        expF ((wf_squared (proposeGaussian scale
            (normalDraw (advance_PRNG_state seed state.delta))
            state.positions)).getD i 0 -
          (wf_squared state.positions).getD i 0)) := by
  have hz : i < (List.zipWith (fun p c => p - c)
      (wf_squared (proposeGaussian scale
        (normalDraw (advance_PRNG_state seed state.delta)) state.positions))
      (wf_squared state.positions)).length := by
    rw [List.length_zipWith]
    exact lt_min hp hc
  simp only [stepMask, acceptMask]
  rw [getD_zipWith (fun ui a => decide (ui < expF a)) 0 0 false _ _ i hu hz]
  rw [getD_zipWith (fun p c => p - c) 0 0 0 _ _ i hp hc]
  simp

/-- C4 witness: a concrete accepted step.  One particle at position [[1]],
proposal offset [[1]] with scale 1 (so proposed position [[2]]),
`wf_squared` taken as the sum of squares of each row, uniform draw 1/2 and
`expF = id`: the acceptance log-ratio is 4 - 1 = 3 > 1/2, so particle 0 is
accepted. -/
theorem C4_witness :
    (stepMask (fun _ => [[1]]) (fun _ _ => [1/2]) id 1
      (fun ps => ps.map (fun row => (row.map (fun x => x * x)).sum)) 0
      ⟨[[1]], [0], 0, 0⟩).getD 0 false = true :=
  (C4_per_particle_acceptance (fun _ => [[1]]) (fun _ _ => [1/2]) id 1
    (fun ps => ps.map (fun row => (row.map (fun x => x * x)).sum)) 0
    ⟨[[1]], [0], 0, 0⟩ 0 (by norm_num) (by norm_num)
    (by norm_num [proposeGaussian, matAdd, matScale])).mpr
    (by norm_num [proposeGaussian, matAdd, matScale])

/-- C5: the analytic Laplacian `laplacian_closure(r, alpha)` equals the sum
over particles of `4·alpha²·(sum over coordinates of r_{i,d}²) - 2·alpha·D`,
the spec's Gaussian-family formula for the single-parameter isotropic trial
state. -/
theorem C5_laplacian_gaussian_formula {n d : ℕ} (r : Fin n → Fin d → ℚ)
    (alpha : ℚ) :
    laplacian_closure r alpha
      = ∑ i, (4 * alpha ^ 2 * ∑ j, (r i j) ^ 2 - 2 * alpha * (d : ℚ)) := rfl

/-- C6: the analytic and the autodiff Laplacian closures do not agree on
every configuration.  For the 2-particle, 1-dimension configuration
[[1],[2]] the analytic closure returns `20·alpha² - 4·alpha` while the jax
closure fails (its `reshape(1, d)` of a 2-element array raises, modelled as
`none`) for every stored and passed parameter value.  The third conjunct
shows the autodiff embedding is exact where the jax closure is defined: on
the single-particle configuration [[3]] with both parameters 1/2 it
returns `4·(1/2)²·9 - 2·(1/2)·1 = 8`, matching the analytic value. -/
theorem C6_laplacian_backends_disagree (alpha0 alpha : ℚ) :
    laplacian_closure_jax alpha0 (![![(1:ℚ)], ![2]]) alpha = none ∧
    laplacian_closure (![![(1:ℚ)], ![2]]) alpha = 20 * alpha ^ 2 - 4 * alpha ∧
    laplacian_closure_jax (1/2) (![![(3:ℚ)]]) (1/2) = some 8 := by
  refine ⟨by norm_num [laplacian_closure_jax], ?_, ?_⟩
  · simp [laplacian_closure, Fin.sum_univ_two, Fin.sum_univ_one]
    ring
  · norm_num [laplacian_closure_jax, hessianTraceWf, grad_wf_closure_jax,
      wf_closureG, npFlatten, D2.var, D2.const, Fin.sum_univ_one, pow_two]

/-- C7: `Metropolis.step` is a deterministic function of the seed and the
chain state, and its random stream is derived only from
`(seed, state.delta)`: if two random-draw families agree at the single
generator state `advance_PRNG_state seed state.delta`, the step produces
identical new states (identical proposals, accept decisions, positions,
log-probabilities, counts and step index), whatever the draw families do
at every other generator state. -/
theorem C7_step_deterministic_from_seed_and_delta
    (nd1 nd2 : ℕ → List (List ℚ)) (ud1 ud2 : ℕ → ℕ → List ℚ)
    (expF : ℚ → ℚ) (scale : ℚ) (wf_squared : List (List ℚ) → List ℚ)
    (seed : ℕ) (n_accepted : ℕ) (state : MCState)
    (hn : nd1 (advance_PRNG_state seed state.delta)
      = nd2 (advance_PRNG_state seed state.delta))
    (hu : ud1 (advance_PRNG_state seed state.delta)
      = ud2 (advance_PRNG_state seed state.delta)) :
    step nd1 ud1 expF scale wf_squared seed n_accepted state
      = step nd2 ud2 expF scale wf_squared seed n_accepted state := by
  simp only [step, stepMask, hn, hu]

/-- C7 witness: two draw families that differ everywhere except at the
derived generator state `advance_PRNG_state 7 3` produce the same step. -/
theorem C7_step_deterministic_witness :
    step (fun _ => [[0]]) (fun _ _ => [1/2]) id 1 (fun ps => ps.map (fun _ => 0))
      7 4 ⟨[[1]], [0], 4, 3⟩
      = step (fun g => if g = advance_PRNG_state 7 3 then [[0]] else [[9]])
        (fun _ _ => [1/2]) id 1 (fun ps => ps.map (fun _ => 0))
        7 4 ⟨[[1]], [0], 4, 3⟩ :=
  C7_step_deterministic_from_seed_and_delta _ _ _ _ _ _ _ _ _ _ (by simp) rfl

/-- C8: the invalid-configuration propagation policy is violated by the
Metropolis backend dispatch.  The `QS` constructor and the
`set_hamiltonian` / `set_sampler` / `set_optimizer` operations all raise on
an unsupported name at setup time, but `Metropolis.__init__` with an
unsupported backend completes normally with `accept_fn` unset (it only
prints), and the failure surfaces only when the sampling loop first calls
`step`. -/
theorem C8_metropolis_backend_error_deferred :
    metropolis_init_accept_fn "torch" = Except.ok none ∧
    metropolis_step_dispatch none
      = Except.error "AttributeError: accept_fn is not set" ∧
    qs_init_backend "torch" = Except.error "Invalid backend" ∧
    set_hamiltonian "torch"
      = Except.error "Invalid Hamiltonian type, should be ho or eo" ∧
    set_sampler "torch"
      = Except.error "Invalid MCMC algorithm type, should be m or mh" ∧
    set_optimizer "torch" = Except.error "Invalid optimizer type, should be gd" :=
  ⟨rfl, rfl, rfl, rfl, rfl, rfl⟩

/-- C9: the log-domain probability density is exactly twice the
log-amplitude, elementwise over the per-particle array:
`prob_closure(r, alpha) = 2 * wf_closure(r, alpha)`, which for the Gaussian
trial state is `2 * (-alpha * sum of squared coordinates)` per particle. -/
theorem C9_prob_closure_twice_wf {n d : ℕ} (r : Fin n → Fin d → ℚ)
    (alpha : ℚ) (i : Fin n) :
    prob_closure r alpha i = 2 * wf_closure r alpha i ∧
    prob_closure r alpha i = 2 * (-alpha * ∑ j, (r i j) ^ 2) := ⟨rfl, rfl⟩

/-- C10: a VMC constructed with alpha = 0.0 (like one constructed with
alpha = None or omitted) stores the default 0.5 for the variational
parameter, because `if alpha:` tests truthiness: the explicit 0.0 is
silently replaced and not honored, while any nonzero supplied value is
kept. -/
theorem C10_alpha_zero_gets_default :
    vmc_init_alpha (some 0) = 1/2 ∧ vmc_init_alpha none = 1/2 ∧
    vmc_init_alpha (some 0) ≠ 0 ∧ vmc_init_alpha (some (1/5)) = 1/5 := by
  refine ⟨?_, ?_, ?_, ?_⟩ <;>
    norm_num [vmc_init_alpha, initialize_variational_params, pythonTruthy]

end VMCRepo
